import Mathlib

/-!
Verification development for the `language-switcher` repository.

The repository is a Selenium-based UI translation-consistency checker.  The
pure, algorithmic parts of the Python sources are shallowly embedded below:

* `src/src/excel_parser.py` / `src/src/tester.py` — the reference-catalog
  loaders (`parse_excel_with_validation`, `load_translations`, and the
  `TranslationTester.load_translations` method), modelled over a raw table
  of optional string cells (`none` models a pandas `NaN` cell).
* `src/lang-switcher.py` — `check_translation`, `check_element_translations`,
  `get_page_elements`, `check_page_translations`, `generate_report`.
* `src/src/element_finder.py` — `find_page_elements`.

Browser interaction (Selenium calls, waits, screenshots, logging) is an
external effect; the embedding keeps the data that the Python code reads
from the browser as explicit arguments (element texts, whether a language
switch reported success, the candidate node lists that the XPath queries
return) and models log messages that the claims mention as `LogEvent`
values.  Python string helpers used by the source (`str.strip`, `str.lower`,
`re.sub(r"\s+", " ", _)`, `html.unescape`) are embedded below; `html.unescape`
is modelled on the common named entities.
-/

/-- Whitespace as recognised by Python's `str.strip` / regex `\s` for the
character set that can realistically appear in the spreadsheet: ASCII
whitespace plus the no-break space. -/
def pyIsSpace (c : Char) : Bool :=
  c == ' ' || c == '\t' || c == '\n' || c == '\r' || c == '\x0b' ||
  c == '\x0c' || c == ' '

/-- Strip elements satisfying `p` from both ends of a list. -/
def stripList {α : Type} (p : α → Bool) (l : List α) : List α :=
  ((l.dropWhile p).reverse.dropWhile p).reverse

/-- Python `str.strip()`: drop leading and trailing whitespace. -/
def pyStrip (s : String) : String :=
  ⟨stripList pyIsSpace s.data⟩

/-- Python `str.lower()` on the ASCII range (`Char.toLower` lowers exactly
the ASCII uppercase letters; Khmer and Chinese characters are unaffected,
as in Python). -/
def lowerStr (s : String) : String :=
  ⟨s.data.map Char.toLower⟩

/-- Character-list version of `re.sub(r"\s+", " ", s)`: every maximal run of
whitespace characters is replaced by a single ASCII space. -/
def collapseChars : List Char → List Char
  | [] => []
  | c :: rest =>
    if pyIsSpace c then
      match collapseChars rest with
      | [] => [' ']
      | d :: ds => if d = ' ' then ' ' :: ds else ' ' :: d :: ds
    else c :: collapseChars rest

/-- `re.sub(r"\s+", " ", s)` as used by the loaders in `excel_parser.py`. -/
def collapseWs (s : String) : String :=
  ⟨collapseChars s.data⟩

/-- One entry of the table used to translate HTML entities; models the
common named entities handled by Python's `html.unescape`. -/
def entityTable : List (String × Char) :=
  [("&amp;", '&'), ("&lt;", '<'), ("&gt;", '>'), ("&quot;", '\"'),
   ("&#39;", '\''), ("&apos;", '\''), ("&nbsp;", ' ')]

/-- Try to read one HTML entity at the head of the character list, returning
the decoded character and the length of the entity consumed. -/
def findEntity (l : List Char) : Option (Char × Nat) :=
  entityTable.findSome? fun p =>
    if p.1.data.isPrefixOf l then some (p.2, p.1.data.length) else none

/-- Fuel-indexed scanner behind `htmlUnescape`; the fuel is the length of
the input, which suffices because every step consumes at least one
character. -/
def unescapeAux : Nat → List Char → List Char
  | 0, l => l
  | _ + 1, [] => []
  | fuel + 1, c :: rest =>
    match findEntity (c :: rest) with
    | some (d, n) => d :: unescapeAux fuel (List.drop n (c :: rest))
    | none => c :: unescapeAux fuel rest

/-- Python's `html.unescape`, restricted to the common named entities of
`entityTable`. -/
def htmlUnescape (s : String) : String :=
  ⟨unescapeAux s.data.length s.data⟩

/-! ## Raw tables and the three catalog loaders

A `RawTable` models a pandas `DataFrame` as read by `pd.read_excel`: a list
of column names and rectangular rows of cells, where a cell is
`Option String` and `none` models a blank cell (`NaN`).  Mixed-dtype
columns (numeric cells inside a string column) are outside the model; the
loaders' `dtype == 'object'` guard is modelled by treating every column as
a string column. -/

structure RawTable where
  columns : List String
  rows : List (List (Option String))
deriving DecidableEq

/-- The six required columns, from `excel_parser.py` and `tester.py`. -/
def requiredColumns : List String :=
  ["Key", "Original EN", "Original CN", "Original KH",
   "KH Confirm from BIC", "CN Confirm from BIC"]

/-- `[col for col in required_columns if col not in df.columns]`. -/
def missingColumns (t : RawTable) : List String :=
  requiredColumns.filter fun c => !(t.columns.contains c)

/-- Index of a column name in a column list (`df[col]` positionally). -/
def colIdx (cols : List String) (c : String) : Nat :=
  cols.findIdx fun x => x == c

/-- Read the cell of `row` that sits under column `c` of `cols`. -/
def cellAt (cols : List String) (row : List (Option String)) (c : String) :
    Option String :=
  row.getD (colIdx cols c) none

/-- Normalization pipeline of `load_translations` in `excel_parser.py`
(lines 74-84), applied cell-wise: `fillna('')`, `str.strip()`,
`re.sub(r"\s+", " ", _)`, `html.unescape`, in that order. -/
def normalizeField (cell : Option String) : String :=
  htmlUnescape (collapseWs (pyStrip (cell.getD "")))

/-- Normalization pipeline of `parse_excel_with_validation` in
`excel_parser.py` (lines 22-30): `fillna('')`, `str.strip()`,
`re.sub(r"\s+", " ", _)` — it performs no HTML-entity decoding. -/
def parseNormalizeField (cell : Option String) : String :=
  collapseWs (pyStrip (cell.getD ""))

/-- The three derived case-folded index cells `en_lower`, `kh_lower`,
`cn_lower` computed from an (already normalized) row. -/
def derivedCells (cols : List String) (row : List (Option String)) :
    List (Option String) :=
  [some (lowerStr ((cellAt cols row "Original EN").getD "")),
   some (lowerStr ((cellAt cols row "KH Confirm from BIC").getD "")),
   some (lowerStr ((cellAt cols row "CN Confirm from BIC").getD ""))]

/-- `load_translations` from `excel_parser.py`: validate the required
columns, normalize every cell (including HTML-entity decoding), then add
the derived `*_lower` index columns.  Duplicate-key and empty-translation
checks in the source only log warnings and do not affect the result. -/
def loadTranslations (t : RawTable) : Except String RawTable :=
  if missingColumns t ≠ [] then
    .error ("Missing required columns: " ++
      String.intercalate ", " (missingColumns t))
  else
    let normRows := t.rows.map fun r => r.map fun cell => some (normalizeField cell)
    .ok { columns := t.columns ++ ["en_lower", "kh_lower", "cn_lower"],
          rows := normRows.map fun r => r ++ derivedCells t.columns r }

/-- `parse_excel_with_validation` from `excel_parser.py`: same validation
and derived columns, but the cell cleanup stops before HTML-entity
decoding. -/
def parseExcelWithValidation (t : RawTable) : Except String RawTable :=
  if missingColumns t ≠ [] then
    .error ("Missing required columns: " ++
      String.intercalate ", " (missingColumns t))
  else
    let normRows := t.rows.map fun r => r.map fun cell => some (parseNormalizeField cell)
    .ok { columns := t.columns ++ ["en_lower", "kh_lower", "cn_lower"],
          rows := normRows.map fun r => r ++ derivedCells t.columns r }

/-- `TranslationTester.load_translations` from `tester.py` (and the
identical method in `lang-switcher.py`): it only validates that the six
required columns exist and otherwise returns the data unchanged — no
cell normalization of any kind. -/
def testerLoadTranslations (t : RawTable) : Except String RawTable :=
  if missingColumns t ≠ [] then
    .error ("Missing required columns: " ++
      String.intercalate ", " (missingColumns t))
  else
    .ok t

/-! ## The typed catalog and the lookup functions

After loading, the checker code in `lang-switcher.py` reads the dataframe
only through the six named columns; a `TranslationEntry` is one row viewed
through them (the spec's data-model name for a row). -/

structure TranslationEntry where
  key : String
  originalEN : String
  originalCN : String
  originalKH : String
  khConfirm : String
  cnConfirm : String
deriving DecidableEq

inductive Lang where
  | en
  | kh
  | cn
deriving DecidableEq

/-- The `column_map` of `check_translation` (lang-switcher.py lines
552-556): `'en' -> 'Original EN'`, `'kh' -> 'KH Confirm from BIC'`,
`'cn' -> 'CN Confirm from BIC'`.  The same selection reappears at lines
351 and 675 where, for `kh`/`cn`, the conditional always picks the
`Confirm from BIC` column. -/
def columnMap : Lang → TranslationEntry → String
  | .en, e => e.originalEN
  | .kh, e => e.khConfirm
  | .cn, e => e.cnConfirm

/-- `check_translation` (lang-switcher.py lines 540-591).  Returns
`(is_matched, expected_text)`; `expected_text = none` models the Python
`None` returned when no row matches.  `df[...].iloc[0]` on a filtered
frame is the first row satisfying the filter, i.e. `List.find?`; the
`Key.isin(keys)` filter keeps rows whose key occurs among the keys of all
English matches. -/
def checkTranslation (df : List TranslationEntry) (elementText : String)
    (language : Lang) : Bool × Option String :=
  let clean := pyStrip elementText
  let matchRow : Option TranslationEntry :=
    match language with
    | .en => df.find? fun e => lowerStr e.originalEN == lowerStr clean
    | _ =>
      let enMatches := df.filter fun e => lowerStr e.originalEN == lowerStr clean
      if enMatches ≠ [] then
        let keys := enMatches.map TranslationEntry.key
        df.find? fun e => keys.contains e.key
      else
        df.find? fun e => lowerStr (columnMap language e) == lowerStr clean
  match matchRow with
  | none => (false, none)
  | some row =>
    let expected := columnMap language row
    (lowerStr clean == lowerStr expected, some expected)

/-- Python truthiness of the optional `key` variable in
`check_element_translations`: `if key:` is false for `None` and for the
empty string. -/
def keyTruthy : Option String → Bool
  | none => false
  | some s => !(s == "")

/-- One `(language, actual, expected, matched)` record appended to
`results["translations"]` by `check_element_translations`. -/
structure LangCheck where
  language : Lang
  actual : String
  expected : Option String
  matched : Bool
deriving DecidableEq

/-- The run-wide `self.results` accumulator of `TranslationTester`. -/
structure Mismatch where
  page : String
  element : String
  language : Lang
  actual : String
  expected : String
  english_reference : Option String
deriving DecidableEq

structure Results where
  total_elements : Nat
  en_matched : Nat
  kh_matched : Nat
  cn_matched : Nat
  en_mismatched : Nat
  kh_mismatched : Nat
  cn_mismatched : Nat
  mismatches : List Mismatch
deriving DecidableEq

def initResults : Results := ⟨0, 0, 0, 0, 0, 0, 0, []⟩

/-- `self.results[f"{lang_code}_matched"] += 1`. -/
def incMatched : Lang → Results → Results
  | .en, r => { r with en_matched := r.en_matched + 1 }
  | .kh, r => { r with kh_matched := r.kh_matched + 1 }
  | .cn, r => { r with cn_matched := r.cn_matched + 1 }

/-- `self.results[f"{lang_code}_mismatched"] += 1`. -/
def incMismatched : Lang → Results → Results
  | .en, r => { r with en_mismatched := r.en_mismatched + 1 }
  | .kh, r => { r with kh_mismatched := r.kh_mismatched + 1 }
  | .cn, r => { r with cn_mismatched := r.cn_mismatched + 1 }

/-- `self.results["mismatches"].append(m)`. -/
def addMismatch (m : Mismatch) (r : Results) : Results :=
  { r with mismatches := r.mismatches ++ [m] }

def matchedOf : Lang → Results → Nat
  | .en, r => r.en_matched
  | .kh, r => r.kh_matched
  | .cn, r => r.cn_matched

def mismatchedOf : Lang → Results → Nat
  | .en, r => r.en_mismatched
  | .kh, r => r.kh_mismatched
  | .cn, r => r.cn_mismatched

/-- The per-element output of `check_element_translations` (its local
`results` dict). -/
structure ElemResults where
  translations : List LangCheck
  has_mismatch : Bool
deriving DecidableEq

/-- The per-language body of the loop at lang-switcher.py lines 320-372,
for `lang ∈ {kh, cn}`.  `langFound` is the text of the element re-located
after the language switch (`none` when `find_element_safe` returned no
element, in which case the body records nothing).  When a row is found,
the consulted column is always the `Confirm from BIC` one (line 351, the
`Original` branch being unreachable for `kh`/`cn`), and the comparison is
case-insensitive. -/
def elemLangCheck (df : List TranslationEntry) (key : Option String)
    (enText : String) (lang : Lang) (langFound : Option String) :
    Option LangCheck :=
  match langFound with
  | none => none
  | some t =>
    let langText := pyStrip t
    let matchRow : Option TranslationEntry :=
      if keyTruthy key then df.find? fun e => e.key == key.getD ""
      else df.find? fun e => lowerStr e.originalEN == lowerStr enText
    match matchRow with
    | none => none
    | some row =>
      let expected := columnMap lang row
      some { language := lang, actual := langText, expected := some expected,
             matched := lowerStr langText == lowerStr expected }

/-- `check_element_translations` (lang-switcher.py lines 255-379).
`keyHint` is the result of `extract_translation_key`; `khText`/`cnText`
are the texts of the element as re-located after switching to Khmer and
Chinese (`none` when it could not be re-located).  Returns the updated
`self.results` and the element's own `results` dict (`none` when the
element is skipped for empty text).  The `if key and key in
df['Key'].values` test followed by `df[df['Key'] == key].iloc[0]` is
modelled as a single `find?` on the key, which is `some` exactly when the
key occurs. -/
def checkElementTranslations (df : List TranslationEntry)
    (keyHint : Option String) (elementText : String)
    (khText cnText : Option String) (res : Results) :
    Results × Option ElemResults :=
  let enText := pyStrip elementText
  if enText == "" then (res, none)
  else
    let keyRow : Option TranslationEntry :=
      if keyTruthy keyHint then df.find? fun e => e.key == keyHint.getD ""
      else none
    let (enExpected, enMatched, key1) :=
      match keyRow with
      | some row =>
        (some row.originalEN, lowerStr enText == lowerStr row.originalEN, keyHint)
      | none =>
        match df.find? (fun e => lowerStr e.originalEN == lowerStr enText) with
        | some row => (some row.originalEN, true, some row.key)
        | none => ((none : Option String), false, keyHint)
    let enCheck : LangCheck :=
      { language := .en, actual := enText, expected := enExpected,
        matched := enMatched }
    let res1 := if enMatched then incMatched .en res else incMismatched .en res
    if keyTruthy key1 || enMatched then
      let khC := elemLangCheck df key1 enText .kh khText
      let cnC := elemLangCheck df key1 enText .cn cnText
      let res2 := match khC with
        | some c => if c.matched then incMatched .kh res1 else incMismatched .kh res1
        | none => res1
      let res3 := match cnC with
        | some c => if c.matched then incMatched .cn res2 else incMismatched .cn res2
        | none => res2
      let hasMis := !enMatched ||
        (match khC with | some c => !c.matched | none => false) ||
        (match cnC with | some c => !c.matched | none => false)
      (res3, some { translations := [enCheck] ++ khC.toList ++ cnC.toList,
                    has_mismatch := hasMis })
    else
      (res1, some { translations := [enCheck], has_mismatch := !enMatched })

/-! ## Page snapshots and the page-level checker -/

/-- A DOM node as the checker sees it: its visible text, whether Selenium's
`is_displayed()` reports it visible, and the locator string that
`get_element_xpath` computes for it. -/
structure PageElem where
  text : String
  displayed : Bool
  locator : String
deriving DecidableEq

/-- `get_page_elements` (lang-switcher.py lines 511-538).  The XPath
queries deliver candidate nodes (`cands`); the function then keeps the
elements whose stripped text is non-empty — it applies no visibility
filter. -/
def getPageElements (cands : List PageElem) : List PageElem :=
  cands.filter fun e => !(pyStrip e.text == "")

/-- `ElementFinder.find_page_elements` (element_finder.py lines 22-58):
keeps the elements whose stripped text is non-empty and that are
currently displayed. -/
def findPageElements (cands : List PageElem) : List PageElem :=
  cands.filter fun e => !(pyStrip e.text == "") && e.displayed

/-- Log messages emitted by `check_page_translations` that the claims talk
about: the element-count warning (line 657) and the "No English reference
found for position i" warning (line 698). -/
inductive LogEvent where
  | sizeMismatch (lang : Lang) (newCount : Nat) (enCount : Nat)
  | noEnglishRef (lang : Lang) (position : Nat)
deriving DecidableEq

/-- The `page_results` dict of `check_page_translations`. -/
structure PageResults where
  page : String
  elements_checked : Nat
  mismatches : List Mismatch
deriving DecidableEq

/-- Python `expected_text or "Not found in translations"` (line 634):
`or` falls through on `None` and on the empty string. -/
def pyOr (s : Option String) (dflt : String) : String :=
  match s with
  | some v => if v == "" then dflt else v
  | none => dflt

/-- English phase of `check_page_translations` (lines 601-644): walk the
snapshot, check each non-empty element against the catalog with
`check_translation`, update the counters and the mismatch lists, and
collect the stripped English texts (the `english_elements` dict, in
insertion order). -/
def enPhase (df : List TranslationEntry) (page : String)
    (elements : List PageElem) (res : Results) (pr : PageResults) :
    Results × PageResults × List String :=
  match elements with
  | [] => (res, pr, [])
  | e :: rest =>
    let t := pyStrip e.text
    if t == "" then enPhase df page rest res pr
    else
      let ck := checkTranslation df t .en
      let pr1 := { pr with elements_checked := pr.elements_checked + 1 }
      let res1 := { res with total_elements := res.total_elements + 1 }
      if ck.1 then
        let out := enPhase df page rest (incMatched .en res1) pr1
        (out.1, out.2.1, t :: out.2.2)
      else
        let m : Mismatch :=
          { page := page, element := e.locator, language := .en, actual := t,
            expected := pyOr ck.2 "Not found in translations",
            english_reference := none }
        let out := enPhase df page rest (addMismatch m (incMismatched .en res1))
          { pr1 with mismatches := pr1.mismatches ++ [m] }
        (out.1, out.2.1, t :: out.2.2)

/-- Body of the positional loop of the non-English phase
(lang-switcher.py lines 660-705), for one `(english text, new element)`
pair at position `i`.  An empty stripped text is skipped; if the English
text has no catalog row, the element is skipped with a "No English
reference" warning and no counter changes; otherwise the first row whose
key equals the key of the first English match supplies the
`Confirm from BIC` expected text, and exactly one counter is bumped. -/
def langStep (df : List TranslationEntry) (page : String) (lang : Lang)
    (enText : String) (e : PageElem) (i : Nat)
    (acc : Results × PageResults × List LogEvent) :
    Results × PageResults × List LogEvent :=
  let t := pyStrip e.text
  if t == "" then acc
  else
    match df.find? (fun en => lowerStr en.originalEN == lowerStr enText) with
    | none => (acc.1, acc.2.1, acc.2.2 ++ [.noEnglishRef lang i])
    | some enRow =>
      match df.find? (fun e2 => e2.key == enRow.key) with
      | none => acc
      | some row =>
        let expected := columnMap lang row
        if lowerStr t == lowerStr expected then
          (incMatched lang acc.1, acc.2.1, acc.2.2)
        else
          let m : Mismatch :=
            { page := page, element := e.locator, language := lang,
              actual := t, expected := expected,
              english_reference := some enText }
          (addMismatch m (incMismatched lang acc.1),
           { acc.2.1 with mismatches := acc.2.1.mismatches ++ [m] },
           acc.2.2)

/-- The positional loop of the non-English phase as written in the source
(`for i, english_key in enumerate(english_elements): if i <
len(new_elements): ...`), indexing the new snapshot by the running
position `i`. -/
def langPhaseAux (df : List TranslationEntry) (page : String) (lang : Lang)
    (enTexts : List String) (newElems : List PageElem) (i : Nat)
    (res : Results) (pr : PageResults) (evs : List LogEvent) :
    Results × PageResults × List LogEvent :=
  match enTexts with
  | [] => (res, pr, evs)
  | enText :: rest =>
    match newElems.get? i with
    | none => langPhaseAux df page lang rest newElems (i + 1) res pr evs
    | some e =>
      let acc := langStep df page lang enText e i (res, pr, evs)
      langPhaseAux df page lang rest newElems (i + 1) acc.1 acc.2.1 acc.2.2

/-- Reformulation of the positional loop that makes the pairing explicit:
fold `langStep` over `enTexts.zip newElems`, i.e. pair the i-th English
element with the i-th element of the new snapshot.  Used to state the
positional-fallback claim. -/
def langPhasePairs (df : List TranslationEntry) (page : String) (lang : Lang)
    (pairs : List (String × PageElem)) (i : Nat) (res : Results)
    (pr : PageResults) (evs : List LogEvent) :
    Results × PageResults × List LogEvent :=
  match pairs with
  | [] => (res, pr, evs)
  | p :: rest =>
    let acc := langStep df page lang p.1 p.2 i (res, pr, evs)
    langPhasePairs df page lang rest (i + 1) acc.1 acc.2.1 acc.2.2

/-- Non-English phase of `check_page_translations` for one language
(lines 647-708): take the new snapshot, warn when its size differs from
the English snapshot, then run the positional loop.  `switchReported` is
the boolean returned by `self.change_language(lang_code)` at line 650 —
the source discards it, so it is an unused argument here. -/
def langPhase (df : List TranslationEntry) (page : String) (lang : Lang)
    (switchReported : Bool) (enTexts : List String) (enCount : Nat)
    (rawNew : List PageElem) (res : Results) (pr : PageResults)
    (evs : List LogEvent) : Results × PageResults × List LogEvent :=
  let _ := switchReported
  let newElems := getPageElements rawNew
  let evs1 := if newElems.length ≠ enCount then
      evs ++ [.sizeMismatch lang newElems.length enCount]
    else evs
  langPhaseAux df page lang enTexts newElems 0 res pr evs1

/-- `check_page_translations` (lang-switcher.py lines 593-710).
`rawEn`, `rawKh`, `rawCn` are the candidate node lists that the XPath
queries return in each language rendering; `khSwitch`/`cnSwitch` are the
results reported by `change_language`, which the source ignores. -/
def checkPageTranslations (df : List TranslationEntry) (page : String)
    (rawEn rawKh rawCn : List PageElem) (khSwitch cnSwitch : Bool)
    (res : Results) : Results × PageResults × List LogEvent :=
  let elements := getPageElements rawEn
  let ep := enPhase df page elements res
    { page := page, elements_checked := 0, mismatches := [] }
  let lp1 := langPhase df page .kh khSwitch ep.2.2 elements.length rawKh
    ep.1 ep.2.1 []
  langPhase df page .cn cnSwitch ep.2.2 elements.length rawCn
    lp1.1 lp1.2.1 lp1.2.2

/-! ## Report generation -/

/-- Exceptions `generate_report` can raise, all swallowed by the
`except` block at lang-switcher.py line 875. -/
inductive PyError where
  | zeroDivisionError
  | keyError (key : String)
deriving DecidableEq

/-- The numbers interpolated into the summary section of the report
f-string (lang-switcher.py lines 798-806). -/
structure Report where
  total_checks : Nat
  total_matches : Nat
  total_mismatches : Nat
  match_percentage : Rat
  en_rate : Rat
  kh_rate : Rat
  cn_rate : Rat
deriving DecidableEq

/-- Python division `a / b`: raises `ZeroDivisionError` when `b = 0`,
modelled as `none`. -/
def pyDivNat (a b : Nat) : Option Rat :=
  if b = 0 then none else some ((a : Rat) / (b : Rat))

/-- Lines 770-818 of `generate_report`: compute the statistics and
evaluate the summary f-string.  The overall match percentage is guarded
(`if total_checks > 0 else 0`, line 775), but the three per-language
match rates at lines 803-805 divide by `matched + mismatched` unguarded,
so evaluating the f-string raises `ZeroDivisionError` whenever one of
those totals is zero. -/
def reportSummary (r : Results) : Except PyError Report :=
  let total_checks := r.total_elements * 3
  let total_matches := r.en_matched + r.kh_matched + r.cn_matched
  let total_mismatches := r.en_mismatched + r.kh_mismatched + r.cn_mismatched
  let match_percentage : Rat :=
    if total_checks > 0 then
      ((total_matches : Rat) / (total_checks : Rat)) * 100
    else 0
  match pyDivNat r.en_matched (r.en_matched + r.en_mismatched),
        pyDivNat r.kh_matched (r.kh_matched + r.kh_mismatched),
        pyDivNat r.cn_matched (r.cn_matched + r.cn_mismatched) with
  | some er, some kr, some cr =>
    .ok { total_checks := total_checks, total_matches := total_matches,
          total_mismatches := total_mismatches,
          match_percentage := match_percentage,
          en_rate := er * 100, kh_rate := kr * 100, cn_rate := cr * 100 }
  | _, _, _ => .error .zeroDivisionError

/-- `str.format` resolution of a bracketed field index against a dict:
a non-numeric index is used verbatim as the key — Python does not strip
quote characters from it — and a missing key raises `KeyError`. -/
def formatDictLookup (d : List (String × String)) (idx : String) :
    Except PyError String :=
  match d.find? (fun p => p.1 == idx) with
  | some p => .ok p.2
  | none => .error (.keyError idx)

/-- The index that the field `self.driver.capabilities['browserName']`
of the config-table template (lang-switcher.py line 856) passes to the
dict lookup when the template is rendered by `.format(self=self)` at line
867: the quote characters are part of the index string. -/
def browserNameIndex : String := "'browserName'"

/-- A Selenium `driver.capabilities` dict: its keys are the plain,
unquoted capability names. -/
def seleniumCapabilities (browserName browserVersion platformName : String) :
    List (String × String) :=
  [("browserName", browserName), ("browserVersion", browserVersion),
   ("platformName", platformName)]

/-- `generate_report` (lang-switcher.py lines 765-877) up to the first
exception.  The summary f-string (lines 778-818) is evaluated first and
raises `ZeroDivisionError` when a per-language total is zero; otherwise
execution reaches the config-table `.format(self=self)` at line 867,
whose first failing field looks up the capabilities dict with the quoted
index `browserNameIndex` and raises `KeyError` (a later `datetime` field
of the same template would raise as well).  The mismatch loop between the
two (lines 821-835) only reads screenshot filenames and raises nothing.
`caps` is the browser-supplied `driver.capabilities` dict. -/
def generateReportE (r : Results) (caps : List (String × String)) :
    Except PyError (Report × String) :=
  match reportSummary r with
  | .error e => .error e
  | .ok summary =>
    match formatDictLookup caps browserNameIndex with
    | .error e => .error e
    | .ok browserCell => .ok (summary, browserCell)

/-- `generate_report` as its caller sees it: every exception is caught by
the `except` at line 875, which logs and returns `None` — so `none` means
no report file was written. -/
def generateReport (r : Results) (caps : List (String × String)) :
    Option (Report × String) :=
  (generateReportE r caps).toOption

/-- Whether a loader raised (its `Except` result is an error). -/
def loadFailed : Except String RawTable → Bool
  | .error _ => true
  | .ok _ => false

def exDfW : List TranslationEntry :=
  [⟨"k1", "Dashboard", "OCN", "OKH", "KhDash", "CnDash"⟩]

def exDfC1 : List TranslationEntry :=
  [⟨"k1", "Submit", "cn1", "kh1", "KhA", "CnA"⟩,
   ⟨"k2", "Submit", "cn2", "kh2", "KhB", "CnB"⟩]

def exDfC3 : List TranslationEntry :=
  [⟨"k1", "Hello", "x", "y", "Hello", "Hello"⟩]

def exHello : PageElem := ⟨"Hello", true, "/p[1]"⟩

def exGhost : PageElem := ⟨"Ghost", true, "/p[1]"⟩

def exKhWord : PageElem := ⟨"XYZ", true, "/p[1]"⟩

def exCnWord : PageElem := ⟨"QQ", true, "/p[1]"⟩

def exC6In : RawTable :=
  ⟨requiredColumns,
   [[some "k1", some "a &amp; b", some "c", some "d", some "e", some "f"]]⟩

def exC6ParseOut : RawTable :=
  ⟨requiredColumns ++ ["en_lower", "kh_lower", "cn_lower"],
   [[some "k1", some "a &amp; b", some "c", some "d", some "e", some "f",
     some "a &amp; b", some "e", some "f"]]⟩

def exC6LoadOut : RawTable :=
  ⟨requiredColumns ++ ["en_lower", "kh_lower", "cn_lower"],
   [[some "k1", some "a & b", some "c", some "d", some "e", some "f",
     some "a & b", some "e", some "f"]]⟩

def exC6TesterIn : RawTable :=
  ⟨requiredColumns,
   [[some "k1", some "  x  ", some "c", some "d", some "e", some "f"]]⟩

/-- Number of (English text, new element) pairs for which the positional
loop actually performs a comparison: non-empty new text and an English
reference row found. -/
def countLangComparisons (df : List TranslationEntry)
    (pairs : List (String × PageElem)) : Nat :=
  (pairs.filter fun p => !(pyStrip p.2.text == "") &&
    (df.find? fun r => lowerStr r.originalEN == lowerStr p.1).isSome).length

/-- Number of comparisons the page check performs per language: every
snapshot element for English; for Khmer/Chinese, the positionally paired
elements whose text is non-empty and whose English reference is found. -/
def comparisonsPerformed (df : List TranslationEntry)
    (rawEn rawKh rawCn : List PageElem) : Lang → Nat
  | .en => (getPageElements rawEn).length
  | .kh => countLangComparisons df
      (((getPageElements rawEn).map fun e => pyStrip e.text).zip
        (getPageElements rawKh))
  | .cn => countLangComparisons df
      (((getPageElements rawEn).map fun e => pyStrip e.text).zip
        (getPageElements rawCn))

/-! ## Shared helper lemmas -/

theorem missingColumns_eq_nil (t : RawTable) :
    missingColumns t = [] ↔ ∀ c ∈ requiredColumns, c ∈ t.columns := by
  simp [missingColumns, List.filter_eq_nil_iff, List.contains_eq_any_beq,
    List.any_eq_true, beq_iff_eq]

theorem dropWhile_dropWhile {α : Type} (p : α → Bool) (l : List α) :
    (l.dropWhile p).dropWhile p = l.dropWhile p := by
  induction l with
  | nil => rfl
  | cons a l ih =>
    by_cases h : p a = true
    · simp [List.dropWhile_cons, h, ih]
    · simp [List.dropWhile_cons, h]

theorem head_dropWhile_false {α : Type} (p : α → Bool) (l : List α) (a : α)
    (rest : List α) (h : l.dropWhile p = a :: rest) : p a = false := by
  induction l with
  | nil => simp at h
  | cons b l ih =>
    by_cases hb : p b = true
    · rw [List.dropWhile_cons, if_pos hb] at h
      exact ih h
    · rw [List.dropWhile_cons, if_neg hb] at h
      injection h with h1 h2
      subst h1
      simpa using hb

theorem stripList_idem {α : Type} (p : α → Bool) (l : List α) :
    stripList p (stripList p l) = stripList p l := by
  simp only [stripList]
  have step1 : (((l.dropWhile p).reverse.dropWhile p).reverse).dropWhile p =
      ((l.dropWhile p).reverse.dropWhile p).reverse := by
    cases hNr : ((l.dropWhile p).reverse.dropWhile p).reverse with
    | nil => rfl
    | cons a rest =>
      have hpre : ((l.dropWhile p).reverse.dropWhile p).reverse <+:
          l.dropWhile p := by
        have hs : (l.dropWhile p).reverse.dropWhile p <:+
            (l.dropWhile p).reverse := List.dropWhile_suffix p
        have h2 := List.reverse_prefix.mpr hs
        rwa [List.reverse_reverse] at h2
      obtain ⟨tail, htail⟩ := hpre
      rw [hNr] at htail
      have hMform : l.dropWhile p = a :: (rest ++ tail) := by
        rw [← htail]
        rfl
      have hpa := head_dropWhile_false p l a (rest ++ tail) hMform
      rw [List.dropWhile_cons, if_neg (by simp [hpa])]
  rw [step1, List.reverse_reverse,
    dropWhile_dropWhile p (l.dropWhile p).reverse]

theorem pyStrip_idem (s : String) : pyStrip (pyStrip s) = pyStrip s := by
  simp only [pyStrip]
  exact congrArg String.mk (stripList_idem pyIsSpace s.data)

/-! ## Claims -/

/-- C9 (amended part): every element kept by `find_page_elements` has
non-empty stripped text and is displayed, and every element kept by
`get_page_elements` has non-empty stripped text (that function applies no
visibility filter). -/
theorem c9_snapshot_filter (cands : List PageElem) (e : PageElem) :
    (e ∈ findPageElements cands → pyStrip e.text ≠ "" ∧ e.displayed = true) ∧
    (e ∈ getPageElements cands → pyStrip e.text ≠ "") := by
  constructor
  · intro h
    have h2 := (List.mem_filter.mp h).2
    simp only [Bool.and_eq_true, Bool.not_eq_true', beq_eq_false_iff_ne] at h2
    exact h2
  · intro h
    have h2 := (List.mem_filter.mp h).2
    simpa using h2

/-- C9 witness: a visible element with text " Save " passes both filters'
guarantees. -/
theorem c9_snapshot_filter_witness :
    pyStrip (PageElem.mk " Save " true "/a[1]").text ≠ "" ∧
    (PageElem.mk " Save " true "/a[1]").displayed = true :=
  (c9_snapshot_filter [PageElem.mk " Save " true "/a[1]"]
    (PageElem.mk " Save " true "/a[1]")).1 (by decide)

/-- C9 counterexample: `get_page_elements` keeps an element that is not
displayed, so a snapshot element need not be visible, refuting the claim
that every snapshot element is currently visible. -/
theorem c9_counterexample :
    getPageElements [PageElem.mk "Ghost" false "/div[1]"] =
      [PageElem.mk "Ghost" false "/div[1]"] ∧
    (PageElem.mk "Ghost" false "/div[1]").displayed = false := by
  decide

/-- C5: all three loaders fail exactly when one of the six required
columns is absent; on success `TranslationTester.load_translations`
returns the table unchanged and the two `excel_parser.py` loaders return
a table with exactly one output row per input row. -/
theorem c5_load_validation (t : RawTable) :
    (loadFailed (testerLoadTranslations t) = true ↔
      ∃ c ∈ requiredColumns, c ∉ t.columns) ∧
    (loadFailed (parseExcelWithValidation t) = true ↔
      ∃ c ∈ requiredColumns, c ∉ t.columns) ∧
    (loadFailed (loadTranslations t) = true ↔
      ∃ c ∈ requiredColumns, c ∉ t.columns) ∧
    (∀ out, testerLoadTranslations t = Except.ok out → out = t) ∧
    (∀ out, parseExcelWithValidation t = Except.ok out →
      out.rows.length = t.rows.length) ∧
    (∀ out, loadTranslations t = Except.ok out →
      out.rows.length = t.rows.length) := by
  have hmc : ¬ missingColumns t = [] ↔ ∃ c ∈ requiredColumns, c ∉ t.columns := by
    rw [missingColumns_eq_nil]
    push_neg
    rfl
  rw [← hmc]
  by_cases h : missingColumns t = []
  · refine ⟨?_, ?_, ?_, ?_, ?_, ?_⟩ <;>
      simp only [testerLoadTranslations, parseExcelWithValidation,
        loadTranslations, ne_eq, h, not_true_eq_false, if_false, loadFailed]
    · simp [h]
    · simp [h]
    · simp [h]
    · intro out hout
      exact (Except.ok.injEq _ _).mp hout.symm
    · intro out hout
      rw [(Except.ok.injEq _ _).mp hout.symm]
      simp
    · intro out hout
      rw [(Except.ok.injEq _ _).mp hout.symm]
      simp
  · refine ⟨?_, ?_, ?_, ?_, ?_, ?_⟩ <;>
      simp only [testerLoadTranslations, parseExcelWithValidation,
        loadTranslations, ne_eq, h, not_false_eq_true, if_true, loadFailed] <;>
      simp [h]

/-- C5 witness: a table missing "Original EN" is rejected, and a complete
one-row table is accepted unchanged by the tester's loader. -/
theorem c5_load_validation_witness :
    loadFailed (testerLoadTranslations ⟨["Key"], []⟩) = true :=
  (c5_load_validation ⟨["Key"], []⟩).1.mpr ⟨"Original EN", by decide, by decide⟩

/-- C10: when no English comparison was performed, evaluating the report
f-string divides by zero at the per-language match rates (lines 803-805);
the exception is swallowed by the `except` at line 875 and
`generate_report` returns `None` with no report file written.  The
overall match percentage itself is guarded (line 775): a summary produced
with `total_elements = 0` carries percentage 0 instead of failing.  The
division is reached at all because the summary f-string is evaluated
before the config-table `.format` of line 867, whose quoted capabilities
index misses every key of a real Selenium capabilities dict — so
`generate_report` in fact returns `None` on every input. -/
theorem c10_report_division (r : Results)
    (h : r.en_matched + r.en_mismatched = 0) :
    (∀ caps, generateReportE r caps = .error .zeroDivisionError ∧
      generateReport r caps = none) ∧
    (∀ s : Results, ∀ rep : Report, reportSummary s = .ok rep →
      s.total_elements = 0 → rep.match_percentage = 0) ∧
    (∀ (s : Results) (bn bv pn : String),
      generateReport s (seleniumCapabilities bn bv pn) = none) := by
  refine ⟨?_, ?_, ?_⟩
  · intro caps
    have hsum : reportSummary r = .error .zeroDivisionError := by
      simp only [reportSummary, pyDivNat, h, if_pos]
    rw [generateReport, generateReportE, hsum]
    exact ⟨rfl, rfl⟩
  · intro s rep hrep hte
    have hz : ¬ s.total_elements * 3 > 0 := by omega
    simp only [reportSummary, pyDivNat, hz, if_false] at hrep
    by_cases h1 : s.en_matched + s.en_mismatched = 0 <;>
      by_cases h2 : s.kh_matched + s.kh_mismatched = 0 <;>
      by_cases h3 : s.cn_matched + s.cn_mismatched = 0 <;>
      simp [h1, h2, h3] at hrep
    rw [← hrep]
  · intro s bn bv pn
    have hfmt : formatDictLookup (seleniumCapabilities bn bv pn)
        browserNameIndex = .error (.keyError browserNameIndex) := rfl
    rw [generateReport, generateReportE]
    cases hs : reportSummary s with
    | error e => rfl
    | ok summary =>
      rw [hfmt]
      rfl

/-- C10 witness: a fresh results accumulator has no English comparisons;
the report pipeline fails with the division error and yields no report. -/
theorem c10_report_division_witness :
    generateReportE initResults
        (seleniumCapabilities "chrome" "120.0" "linux") =
      .error .zeroDivisionError ∧
    generateReport initResults
        (seleniumCapabilities "chrome" "120.0" "linux") = none :=
  (c10_report_division initResults rfl).1
    (seleniumCapabilities "chrome" "120.0" "linux")

theorem colIdx_append (cols extra : List String) (c : String) (h : c ∈ cols) :
    colIdx (cols ++ extra) c = colIdx cols c := by
  induction cols with
  | nil => simp at h
  | cons a l ih =>
    cases hac : (a == c) with
    | true => simp [colIdx, List.findIdx_cons, hac]
    | false =>
      have h1 : c ∈ l := by
        rcases List.mem_cons.mp h with h2 | h2
        · rw [h2] at hac
          simp at hac
        · exact h2
      have := ih h1
      simp only [colIdx, List.cons_append, List.findIdx_cons, hac,
        cond_false] at this ⊢
      omega

theorem colIdx_lt (cols : List String) (c : String) (h : c ∈ cols) :
    colIdx cols c < cols.length :=
  List.findIdx_lt_length_of_exists ⟨c, h, by simp⟩

/-- Reading a required column out of a normalized-then-extended row gives
the normalizer applied to the original cell. -/
theorem cellAt_norm (cols : List String) (f : Option String → String)
    (r0 : List (Option String)) (c : String) (hc : c ∈ cols)
    (hlen : r0.length = cols.length) :
    cellAt (cols ++ ["en_lower", "kh_lower", "cn_lower"])
      ((r0.map fun cell => some (f cell)) ++
        derivedCells cols (r0.map fun cell => some (f cell))) c =
      some (f (cellAt cols r0 c)) := by
  have hidx := colIdx_lt cols c hc
  rw [cellAt, colIdx_append _ _ _ hc, List.getD_eq_getElem?_getD,
    List.getElem?_append_left (by simpa [hlen] using hidx),
    List.getElem?_map, cellAt, List.getD_eq_getElem?_getD]
  cases hr : r0[colIdx cols c]? with
  | none =>
    have hge := List.getElem?_eq_none_iff.mp hr
    omega
  | some cell => simp [hr]

/-- A row fetched with `getD` at a valid index is a member of the list. -/
theorem getD_mem_of_lt {α : Type} (l : List α) (i : Nat) (d : α)
    (hi : i < l.length) : l.getD i d ∈ l := by
  rw [List.getD_eq_getElem?_getD, List.getElem?_eq_getElem hi]
  exact List.getElem_mem hi

/-- C6 (amended): the full normalization pipeline — blank to empty
string, strip, whitespace collapse, HTML-entity decode — holds for every
required-column field of every row loaded by `load_translations` in
`excel_parser.py`; `parse_excel_with_validation` applies the same
pipeline without entity decoding; the tester's own `load_translations`
returns the rows completely unnormalized. -/
theorem c6_field_normalization (t out : RawTable)
    (hrect : ∀ r ∈ t.rows, r.length = t.columns.length)
    (hload : loadTranslations t = Except.ok out) :
    (∀ i c, i < t.rows.length → c ∈ requiredColumns →
      cellAt out.columns (out.rows.getD i []) c =
        some (htmlUnescape (collapseWs (pyStrip
          ((cellAt t.columns (t.rows.getD i []) c).getD ""))))) ∧
    (∀ i c, i < t.rows.length → c ∈ requiredColumns →
      cellAt t.columns (t.rows.getD i []) c = none →
      cellAt out.columns (out.rows.getD i []) c = some "") ∧
    (∀ out2, parseExcelWithValidation t = Except.ok out2 →
      ∀ i c, i < t.rows.length → c ∈ requiredColumns →
        cellAt out2.columns (out2.rows.getD i []) c =
          some (collapseWs (pyStrip
            ((cellAt t.columns (t.rows.getD i []) c).getD "")))) ∧
    (∀ out3, testerLoadTranslations t = Except.ok out3 → out3 = t) := by
  by_cases h : missingColumns t = []
  case neg =>
    simp [loadTranslations, h] at hload
  case pos =>
    have hcols : ∀ c ∈ requiredColumns, c ∈ t.columns :=
      (missingColumns_eq_nil t).mp h
    simp only [loadTranslations, ne_eq, h, not_true_eq_false, if_false] at hload
    have hout := (Except.ok.injEq _ _).mp hload
    have main : ∀ (f : Option String → String) i c, i < t.rows.length →
        c ∈ requiredColumns →
        cellAt (t.columns ++ ["en_lower", "kh_lower", "cn_lower"])
          (((t.rows.map fun r => r.map fun cell => some (f cell)).map
            fun r => r ++ derivedCells t.columns r).getD i []) c =
          some (f (cellAt t.columns (t.rows.getD i []) c)) := by
      intro f i c hi hc
      have hrowlen : (t.rows.getD i []).length = t.columns.length :=
        hrect _ (getD_mem_of_lt t.rows i [] hi)
      have hrows :
          ((t.rows.map fun r => r.map fun cell => some (f cell)).map
            fun r => r ++ derivedCells t.columns r).getD i [] =
          ((t.rows.getD i []).map fun cell => some (f cell)) ++
            derivedCells t.columns
              ((t.rows.getD i []).map fun cell => some (f cell)) := by
        rw [List.getD_eq_getElem?_getD, List.getElem?_map, List.getElem?_map,
          List.getElem?_eq_getElem hi, List.getD_eq_getElem?_getD,
          List.getElem?_eq_getElem hi]
        rfl
      rw [hrows]
      exact cellAt_norm t.columns f (t.rows.getD i []) c (hcols c hc) hrowlen
    refine ⟨?_, ?_, ?_, ?_⟩
    · intro i c hi hc
      rw [← hout]
      exact main normalizeField i c hi hc
    · intro i c hi hc hnone
      rw [← hout]
      have := main normalizeField i c hi hc
      rw [hnone] at this
      exact this
    · intro out2 hload2
      by_cases h2 : missingColumns t = []
      · simp only [parseExcelWithValidation, ne_eq, h2, not_true_eq_false,
          if_false] at hload2
        have hout2 := (Except.ok.injEq _ _).mp hload2
        intro i c hi hc
        rw [← hout2]
        exact main parseNormalizeField i c hi hc
      · exact absurd h h2
    · intro out3 hload3
      simp only [testerLoadTranslations, ne_eq, h, not_true_eq_false,
        if_false] at hload3
      exact ((Except.ok.injEq _ _).mp hload3).symm









/-- C6 counterexample: `parse_excel_with_validation` loads successfully
but leaves the HTML entity `&amp;` undecoded, and the tester's
`load_translations` loads successfully without even trimming whitespace —
so "every successfully loaded catalog has every field normalized" fails
as stated. -/
theorem c6_counterexample :
    parseExcelWithValidation exC6In = Except.ok exC6ParseOut ∧
    cellAt exC6ParseOut.columns (exC6ParseOut.rows.getD 0 []) "Original EN" =
      some "a &amp; b" ∧
    htmlUnescape "a &amp; b" ≠ "a &amp; b" ∧
    testerLoadTranslations exC6TesterIn = Except.ok exC6TesterIn ∧
    cellAt exC6TesterIn.columns (exC6TesterIn.rows.getD 0 []) "Original EN" =
      some "  x  " ∧
    pyStrip "  x  " ≠ "  x  " := by
  refine ⟨rfl, by decide, by decide, rfl, by decide, by decide⟩

/-- C6 witness: the amended theorem applied to a concrete one-row table
loaded with the full `load_translations` pipeline. -/
theorem c6_field_normalization_witness :
    cellAt exC6LoadOut.columns (exC6LoadOut.rows.getD 0 []) "Original EN" =
      some (htmlUnescape (collapseWs (pyStrip
        ((cellAt exC6In.columns (exC6In.rows.getD 0 []) "Original EN").getD
          "")))) :=
  (c6_field_normalization exC6In exC6LoadOut (by decide) rfl).1
    0 "Original EN" (by decide) (by decide)

/-- Helper for the non-English branches of `check_translation`: whatever
path found the row, the expected text comes from that row's
`Confirm from BIC` column (via `columnMap`) and the match verdict is the
case-insensitive comparison with it. -/
theorem checkTranslation_ne_en (df : List TranslationEntry) (t : String)
    (lang : Lang) (hne : lang ≠ Lang.en) (m : Bool) (e : String)
    (heq : checkTranslation df t lang = (m, some e)) :
    ∃ row ∈ df, e = columnMap lang row ∧
      (m = true ↔ lowerStr (pyStrip t) = lowerStr e) := by
  cases lang with
  | en => exact absurd rfl hne
  | kh =>
    simp only [checkTranslation, columnMap] at heq
    by_cases hfil :
        df.filter (fun r => lowerStr r.originalEN == lowerStr (pyStrip t)) ≠ []
    · rw [if_pos hfil] at heq
      cases hf : df.find? (fun r =>
          ((df.filter (fun r2 => lowerStr r2.originalEN ==
            lowerStr (pyStrip t))).map TranslationEntry.key).contains r.key) with
      | none => rw [hf] at heq; simp at heq
      | some row =>
        rw [hf] at heq
        simp only [Prod.mk.injEq, Option.some.injEq] at heq
        refine ⟨row, List.mem_of_find?_eq_some hf, heq.2.symm, ?_⟩
        rw [← heq.1, ← heq.2]
        simp
    · rw [if_neg hfil] at heq
      cases hf : df.find? (fun r =>
          lowerStr r.khConfirm == lowerStr (pyStrip t)) with
      | none => rw [hf] at heq; simp at heq
      | some row =>
        rw [hf] at heq
        simp only [Prod.mk.injEq, Option.some.injEq] at heq
        refine ⟨row, List.mem_of_find?_eq_some hf, heq.2.symm, ?_⟩
        rw [← heq.1, ← heq.2]
        simp
  | cn =>
    simp only [checkTranslation, columnMap] at heq
    by_cases hfil :
        df.filter (fun r => lowerStr r.originalEN == lowerStr (pyStrip t)) ≠ []
    · rw [if_pos hfil] at heq
      cases hf : df.find? (fun r =>
          ((df.filter (fun r2 => lowerStr r2.originalEN ==
            lowerStr (pyStrip t))).map TranslationEntry.key).contains r.key) with
      | none => rw [hf] at heq; simp at heq
      | some row =>
        rw [hf] at heq
        simp only [Prod.mk.injEq, Option.some.injEq] at heq
        refine ⟨row, List.mem_of_find?_eq_some hf, heq.2.symm, ?_⟩
        rw [← heq.1, ← heq.2]
        simp
    · rw [if_neg hfil] at heq
      cases hf : df.find? (fun r =>
          lowerStr r.cnConfirm == lowerStr (pyStrip t)) with
      | none => rw [hf] at heq; simp at heq
      | some row =>
        rw [hf] at heq
        simp only [Prod.mk.injEq, Option.some.injEq] at heq
        refine ⟨row, List.mem_of_find?_eq_some hf, heq.2.symm, ?_⟩
        rw [← heq.1, ← heq.2]
        simp

/-- C2: text lookup is a case-insensitive exact comparison whose column is
asymmetric per language.  (1) the outcome depends on the element text only
through its stripped, case-folded form; (2) an English check draws the
expected text from the `Original EN` column of a row whose `Original EN`
matches case-insensitively, and such a hit always reports a match; (3) a
Khmer/Chinese check draws the expected text from the row's
`Confirm from BIC` column and the verdict is the case-insensitive
comparison against it; (4) the `Original KH` / `Original CN` columns are
never consulted: rewriting them arbitrarily cannot change any result. -/
theorem c2_text_lookup (df : List TranslationEntry) (t : String) :
    (∀ t2 lang, lowerStr (pyStrip t) = lowerStr (pyStrip t2) →
      checkTranslation df t lang = checkTranslation df t2 lang) ∧
    (∀ m e, checkTranslation df t .en = (m, some e) →
      ∃ row ∈ df, e = row.originalEN ∧
        lowerStr row.originalEN = lowerStr (pyStrip t) ∧ m = true) ∧
    (∀ lang, lang ≠ Lang.en → ∀ m e, checkTranslation df t lang = (m, some e) →
      ∃ row ∈ df, e = columnMap lang row ∧
        (m = true ↔ lowerStr (pyStrip t) = lowerStr e)) ∧
    (∀ (lang : Lang) (modKH modCN : TranslationEntry → String),
      checkTranslation (df.map fun r =>
        { r with originalKH := modKH r, originalCN := modCN r }) t lang =
      checkTranslation df t lang) := by
  refine ⟨?_, ?_, fun lang hne m e heq => checkTranslation_ne_en df t lang hne m e heq, ?_⟩
  · intro t2 lang hlow
    simp only [checkTranslation, hlow]
  · intro m e heq
    simp only [checkTranslation, columnMap] at heq
    cases hf : df.find? (fun r => lowerStr r.originalEN == lowerStr (pyStrip t)) with
    | none => rw [hf] at heq; simp at heq
    | some row =>
      rw [hf] at heq
      simp only [Prod.mk.injEq, Option.some.injEq] at heq
      have hpe : lowerStr row.originalEN = lowerStr (pyStrip t) := by
        have hp := List.find?_some hf
        simpa using hp
      refine ⟨row, List.mem_of_find?_eq_some hf, heq.2.symm, hpe, ?_⟩
      rw [← heq.1]
      simp [hpe]
  · intro lang modKH modCN
    cases lang with
    | en =>
      simp only [checkTranslation, columnMap, List.find?_map, Function.comp_def]
      cases hf : df.find? (fun r => lowerStr r.originalEN == lowerStr (pyStrip t)) with
      | none => simp
      | some row => simp
    | kh =>
      simp only [checkTranslation, columnMap, List.find?_map, List.filter_map,
        Function.comp_def, List.map_map]
      by_cases hfil :
          df.filter (fun r => lowerStr r.originalEN == lowerStr (pyStrip t)) ≠ []
      · rw [if_pos (by simpa using hfil), if_pos hfil]
        cases hf : df.find? (fun r =>
            ((df.filter (fun r2 => lowerStr r2.originalEN ==
              lowerStr (pyStrip t))).map TranslationEntry.key).contains r.key) with
        | none => simp
        | some row => simp
      · rw [if_neg (by simpa using hfil), if_neg hfil]
        cases hf : df.find? (fun r =>
            lowerStr r.khConfirm == lowerStr (pyStrip t)) with
        | none => simp
        | some row => simp
    | cn =>
      simp only [checkTranslation, columnMap, List.find?_map, List.filter_map,
        Function.comp_def, List.map_map]
      by_cases hfil :
          df.filter (fun r => lowerStr r.originalEN == lowerStr (pyStrip t)) ≠ []
      · rw [if_pos (by simpa using hfil), if_pos hfil]
        cases hf : df.find? (fun r =>
            ((df.filter (fun r2 => lowerStr r2.originalEN ==
              lowerStr (pyStrip t))).map TranslationEntry.key).contains r.key) with
        | none => simp
        | some row => simp
      · rw [if_neg (by simpa using hfil), if_neg hfil]
        cases hf : df.find? (fun r =>
            lowerStr r.cnConfirm == lowerStr (pyStrip t)) with
        | none => simp
        | some row => simp



/-- C2 witness: the same lookup outcome for two case/whitespace variants
of the element text. -/
theorem c2_text_lookup_witness :
    checkTranslation exDfW "  DASHBOARD " Lang.en =
      checkTranslation exDfW "dashboard" Lang.en :=
  (c2_text_lookup exDfW "  DASHBOARD ").1 "dashboard" Lang.en (by decide)

/-- C1: resolver precedence in `check_element_translations`.
Key branch: when the element carries a truthy key hint that occurs in the
catalog, the English expected text is that row's `Original EN` and the
Khmer/Chinese expected texts are that row's `Confirm from BIC` columns —
whatever the element text (so a text match pointing at a different row is
irrelevant: the key wins).  Text branch: with no key hint, a
case-insensitive English text match selects a row, reports an English
match, and the row's key is remembered and reused for the Khmer and
Chinese checks (they look up by that key, not by text). -/
theorem c1_resolver_precedence (df : List TranslationEntry) (res : Results)
    (elementText kt ct : String) :
    (∀ (k : String) (rowK : TranslationEntry), (k == "") = false →
      df.find? (fun r => r.key == k) = some rowK →
      (pyStrip elementText == "") = false →
      (checkElementTranslations df (some k) elementText (some kt) (some ct)
          res).2 =
        some ⟨[⟨.en, pyStrip elementText, some rowK.originalEN,
                lowerStr (pyStrip elementText) == lowerStr rowK.originalEN⟩,
               ⟨.kh, pyStrip kt, some rowK.khConfirm,
                lowerStr (pyStrip kt) == lowerStr rowK.khConfirm⟩,
               ⟨.cn, pyStrip ct, some rowK.cnConfirm,
                lowerStr (pyStrip ct) == lowerStr rowK.cnConfirm⟩],
          !(lowerStr (pyStrip elementText) == lowerStr rowK.originalEN) ||
          !(lowerStr (pyStrip kt) == lowerStr rowK.khConfirm) ||
          !(lowerStr (pyStrip ct) == lowerStr rowK.cnConfirm)⟩) ∧
    (∀ (rowT rowK2 : TranslationEntry),
      df.find? (fun r => lowerStr r.originalEN ==
        lowerStr (pyStrip elementText)) = some rowT →
      (pyStrip elementText == "") = false →
      (rowT.key == "") = false →
      df.find? (fun r => r.key == rowT.key) = some rowK2 →
      (checkElementTranslations df none elementText (some kt) (some ct)
          res).2 =
        some ⟨[⟨.en, pyStrip elementText, some rowT.originalEN, true⟩,
               ⟨.kh, pyStrip kt, some rowK2.khConfirm,
                lowerStr (pyStrip kt) == lowerStr rowK2.khConfirm⟩,
               ⟨.cn, pyStrip ct, some rowK2.cnConfirm,
                lowerStr (pyStrip ct) == lowerStr rowK2.cnConfirm⟩],
          !(lowerStr (pyStrip kt) == lowerStr rowK2.khConfirm) ||
          !(lowerStr (pyStrip ct) == lowerStr rowK2.cnConfirm)⟩) := by
  constructor
  · intro k rowK hk hfind ht
    simp [checkElementTranslations, ht, keyTruthy, hk, hfind,
      elemLangCheck, columnMap]
  · intro rowT rowK2 hfindT ht hkey hfindK
    simp [checkElementTranslations, ht, keyTruthy, hfindT, hfindK, hkey,
      elemLangCheck, columnMap]



/-- C1 witness: a catalog with two rows sharing the English text "Submit";
the element's key hint "k2" selects the second row for every language,
even though text lookup would have found the first row. -/
theorem c1_resolver_precedence_witness :
    (checkElementTranslations exDfC1 (some "k2") "Submit" (some "KhB")
        (some "CnB") initResults).2 =
      some ⟨[⟨.en, "Submit", some "Submit", true⟩,
             ⟨.kh, "KhB", some "KhB", true⟩,
             ⟨.cn, "CnB", some "CnB", true⟩], false⟩ ∧
    exDfC1.find? (fun r => lowerStr r.originalEN ==
      lowerStr (pyStrip "Submit")) =
      some ⟨"k1", "Submit", "cn1", "kh1", "KhA", "CnA"⟩ := by
  constructor
  · rw [(c1_resolver_precedence exDfC1 initResults "Submit" "KhB" "CnB").1
      "k2" ⟨"k2", "Submit", "cn2", "kh2", "KhB", "CnB"⟩ (by decide)
      (by decide) (by decide)]
    decide
  · decide





/-- C3 counterexample: `change_language` reports failure for both Khmer
and Chinese (both switch flags are `false`), yet the page's only element
is recorded as a Khmer and Chinese MATCH — not as a mismatch with
`expected = none` — because `check_page_translations` discards the return
value of `change_language` and compares whatever the page still shows. -/
theorem c3_counterexample :
    (checkPageTranslations exDfC3 "Pg" [exHello] [exHello] [exHello] false
        false initResults).1.kh_matched = 1 ∧
    (checkPageTranslations exDfC3 "Pg" [exHello] [exHello] [exHello] false
        false initResults).1.kh_mismatched = 0 ∧
    (checkPageTranslations exDfC3 "Pg" [exHello] [exHello] [exHello] false
        false initResults).1.cn_matched = 1 ∧
    (checkPageTranslations exDfC3 "Pg" [exHello] [exHello] [exHello] false
        false initResults).1.mismatches = [] := by
  decide

/-- C3 (amended): the reported result of the language switch is ignored —
the page check's entire outcome is identical whether `change_language`
reported success or failure, and the check always runs to completion. -/
theorem c3_switch_result_ignored (df : List TranslationEntry) (page : String)
    (rawEn rawKh rawCn : List PageElem) (s1 s2 s1a s2a : Bool)
    (res : Results) :
    checkPageTranslations df page rawEn rawKh rawCn s1 s2 res =
      checkPageTranslations df page rawEn rawKh rawCn s1a s2a res := rfl







/-- C4 counterexample: an element ("Ghost") with no catalog entry.  The
English check counts it as a mismatch, but the Khmer and Chinese checks
of the same element leave every counter and the mismatch list untouched —
they only log a "No English reference" warning — so the unresolvable
outcome is NOT counted for every language checked. -/
theorem c4_counterexample :
    (checkPageTranslations exDfC3 "Pg" [exGhost] [exKhWord] [exCnWord] true
        true initResults).1.en_mismatched = 1 ∧
    (checkPageTranslations exDfC3 "Pg" [exGhost] [exKhWord] [exCnWord] true
        true initResults).1.kh_matched = 0 ∧
    (checkPageTranslations exDfC3 "Pg" [exGhost] [exKhWord] [exCnWord] true
        true initResults).1.kh_mismatched = 0 ∧
    (checkPageTranslations exDfC3 "Pg" [exGhost] [exKhWord] [exCnWord] true
        true initResults).1.cn_matched = 0 ∧
    (checkPageTranslations exDfC3 "Pg" [exGhost] [exKhWord] [exCnWord] true
        true initResults).1.cn_mismatched = 0 ∧
    (checkPageTranslations exDfC3 "Pg" [exGhost] [exKhWord] [exCnWord] true
        true initResults).1.mismatches =
      [⟨"Pg", "/p[1]", .en, "Ghost", "Not found in translations", none⟩] ∧
    (checkPageTranslations exDfC3 "Pg" [exGhost] [exKhWord] [exCnWord] true
        true initResults).2.2 =
      [.noEnglishRef .kh 0, .noEnglishRef .cn 0] := by
  decide

/-- C4 (amended): unresolvable elements are counted only by the English
check.  (1) `check_translation` returns `(false, none)` when no row
matches; (2) the English phase then counts the element as `en_mismatched`
and records a mismatch whose expected text is the placeholder "Not found
in translations"; (3) the Khmer/Chinese positional step, when the English
baseline text has no catalog row, changes no counters and records no
mismatch — it only appends a warning event. -/
theorem c4_unresolvable_counted (df : List TranslationEntry) (page : String)
    (e : PageElem) (rest : List PageElem) (res : Results) (pr : PageResults)
    (lang : Lang) (i : Nat) (acc : Results × PageResults × List LogEvent)
    (enT : String)
    (ht : (pyStrip e.text == "") = false)
    (hnone : df.find? (fun r => lowerStr r.originalEN ==
      lowerStr (pyStrip e.text)) = none)
    (hnone2 : df.find? (fun r => lowerStr r.originalEN ==
      lowerStr enT) = none) :
    checkTranslation df e.text .en = (false, none) ∧
    enPhase df page (e :: rest) res pr =
      (let m : Mismatch := ⟨page, e.locator, .en, pyStrip e.text,
        "Not found in translations", none⟩
       let out := enPhase df page rest
         (addMismatch m (incMismatched .en
           { res with total_elements := res.total_elements + 1 }))
         ⟨pr.page, pr.elements_checked + 1, pr.mismatches ++ [m]⟩
       (out.1, out.2.1, pyStrip e.text :: out.2.2)) ∧
    langStep df page lang enT e i acc =
      (acc.1, acc.2.1, acc.2.2 ++ [.noEnglishRef lang i]) := by
  have hck : checkTranslation df e.text .en = (false, none) := by
    simp only [checkTranslation, hnone]
  have hck2 : checkTranslation df (pyStrip e.text) .en = (false, none) := by
    simp only [checkTranslation, pyStrip_idem, hnone]
  refine ⟨hck, ?_, ?_⟩
  · simp only [enPhase, ht, if_false, Bool.false_eq_true, hck2, pyOr]
  · simp only [langStep, ht, if_false, Bool.false_eq_true, hnone2]

/-- C4 witness: the amended theorem evaluated on the concrete "Ghost"
element of the counterexample. -/
theorem c4_unresolvable_counted_witness :
    checkTranslation exDfC3 exGhost.text Lang.en = (false, none) :=
  (c4_unresolvable_counted exDfC3 "Pg" exGhost [] initResults
    ⟨"Pg", 0, []⟩ Lang.kh 0 (initResults, ⟨"Pg", 0, []⟩, []) "Ghost"
    (by decide) (by decide) (by decide)).1

theorem drop_cons_of_get? {α : Type} : ∀ (l : List α) (i : Nat) (e : α),
    l.get? i = some e → l.drop i = e :: l.drop (i + 1)
  | [], i, e, h => by simp at h
  | a :: l, 0, e, h => by
    simp only [List.get?] at h
    injection h with h1
    subst h1
    rfl
  | a :: l, i + 1, e, h => by
    simp only [List.get?] at h
    simpa using drop_cons_of_get? l i e h

/-- The source's indexed positional loop is the fold of `langStep` over
the zip of the English texts with the new snapshot: the i-th English
element is compared with the i-th element of the new snapshot. -/
theorem langPhaseAux_eq_pairs (df : List TranslationEntry) (page : String)
    (lang : Lang) (enTexts : List String) (newElems : List PageElem)
    (i : Nat) (res : Results) (pr : PageResults) (evs : List LogEvent) :
    langPhaseAux df page lang enTexts newElems i res pr evs =
      langPhasePairs df page lang (enTexts.zip (newElems.drop i)) i res pr
        evs := by
  induction enTexts generalizing i res pr evs with
  | nil => simp [langPhaseAux, langPhasePairs]
  | cons t rest ih =>
    cases h : newElems.get? i with
    | none =>
      have hlen := List.get?_eq_none.mp h
      have hd : newElems.drop i = [] := List.drop_eq_nil_of_le hlen
      have hd2 : newElems.drop (i + 1) = [] :=
        List.drop_eq_nil_of_le (Nat.le_succ_of_le hlen)
      rw [langPhaseAux, h, ih, hd2, hd]
      simp [langPhasePairs]
    | some e =>
      have hd : newElems.drop i = e :: newElems.drop (i + 1) :=
        drop_cons_of_get? newElems i e h
      rw [langPhaseAux, h, hd]
      simp only [langPhasePairs, List.zip_cons_cons]
      exact ih (i + 1) _ _ _

theorem matchedOf_incMatched (lang : Lang) (r : Results) :
    matchedOf lang (incMatched lang r) = matchedOf lang r + 1 := by
  cases lang <;> rfl

theorem mismatchedOf_incMismatched (lang : Lang) (r : Results) :
    mismatchedOf lang (incMismatched lang r) = mismatchedOf lang r + 1 := by
  cases lang <;> rfl

theorem matchedOf_incMismatched (l2 lang : Lang) (r : Results) :
    matchedOf l2 (incMismatched lang r) = matchedOf l2 r := by
  cases lang <;> cases l2 <;> rfl

theorem mismatchedOf_incMatched (l2 lang : Lang) (r : Results) :
    mismatchedOf l2 (incMatched lang r) = mismatchedOf l2 r := by
  cases lang <;> cases l2 <;> rfl

theorem matchedOf_incMatched_ne (l2 lang : Lang) (r : Results)
    (h : l2 ≠ lang) : matchedOf l2 (incMatched lang r) = matchedOf l2 r := by
  cases lang <;> cases l2 <;> first | rfl | exact absurd rfl h

theorem mismatchedOf_incMismatched_ne (l2 lang : Lang) (r : Results)
    (h : l2 ≠ lang) :
    mismatchedOf l2 (incMismatched lang r) = mismatchedOf l2 r := by
  cases lang <;> cases l2 <;> first | rfl | exact absurd rfl h

theorem matchedOf_addMismatch (l2 : Lang) (m : Mismatch) (r : Results) :
    matchedOf l2 (addMismatch m r) = matchedOf l2 r := by
  cases l2 <;> rfl

theorem mismatchedOf_addMismatch (l2 : Lang) (m : Mismatch) (r : Results) :
    mismatchedOf l2 (addMismatch m r) = mismatchedOf l2 r := by
  cases l2 <;> rfl



/-- Counting invariant of the positional loop: the checked language's
matched + mismatched counters advance by exactly the number of pairs on
which a comparison is performed, and the other languages' counters are
untouched. -/
theorem langPhasePairs_counts (df : List TranslationEntry) (page : String)
    (lang : Lang) (pairs : List (String × PageElem)) (i : Nat)
    (res : Results) (pr : PageResults) (evs : List LogEvent) :
    (matchedOf lang (langPhasePairs df page lang pairs i res pr evs).1 +
      mismatchedOf lang (langPhasePairs df page lang pairs i res pr evs).1 =
      matchedOf lang res + mismatchedOf lang res +
        countLangComparisons df pairs) ∧
    (∀ l2, l2 ≠ lang →
      matchedOf l2 (langPhasePairs df page lang pairs i res pr evs).1 =
        matchedOf l2 res ∧
      mismatchedOf l2 (langPhasePairs df page lang pairs i res pr evs).1 =
        mismatchedOf l2 res) := by
  induction pairs generalizing i res pr evs with
  | nil => simp [langPhasePairs, countLangComparisons]
  | cons p rest ih =>
    by_cases h1 : (pyStrip p.2.text == "") = true
    · have hstep : langStep df page lang p.1 p.2 i (res, pr, evs) =
          (res, pr, evs) := by
        simp [langStep, h1]
      rw [langPhasePairs, hstep]
      dsimp only
      have hcount : countLangComparisons df (p :: rest) =
          countLangComparisons df rest := by
        simp [countLangComparisons, List.filter_cons, h1]
      rw [hcount]
      exact ih (i + 1) res pr evs
    · cases hf : df.find? (fun r => lowerStr r.originalEN ==
          lowerStr p.1) with
      | none =>
        have hstep : langStep df page lang p.1 p.2 i (res, pr, evs) =
            (res, pr, evs ++ [.noEnglishRef lang i]) := by
          simp only [langStep, h1, if_false, Bool.false_eq_true, hf]
        rw [langPhasePairs, hstep]
        dsimp only
        have hcount : countLangComparisons df (p :: rest) =
            countLangComparisons df rest := by
          simp [countLangComparisons, List.filter_cons, h1, hf]
        rw [hcount]
        exact ih (i + 1) res pr _
      | some enRow =>
        have hmem := List.mem_of_find?_eq_some hf
        have hsome : (df.find? fun r2 => r2.key == enRow.key).isSome :=
          List.find?_isSome.mpr ⟨enRow, hmem, by simp⟩
        obtain ⟨row, hrow⟩ := Option.isSome_iff_exists.mp hsome
        have hcount : countLangComparisons df (p :: rest) =
            countLangComparisons df rest + 1 := by
          simp [countLangComparisons, List.filter_cons, h1, hf]
        by_cases hm : (lowerStr (pyStrip p.2.text) ==
            lowerStr (columnMap lang row)) = true
        · have hstep : langStep df page lang p.1 p.2 i (res, pr, evs) =
              (incMatched lang res, pr, evs) := by
            simp only [langStep, h1, if_false, Bool.false_eq_true, hf, hrow,
              hm, if_true]
          rw [langPhasePairs, hstep, hcount]
          dsimp only
          obtain ⟨ha, hb⟩ := ih (i + 1) (incMatched lang res) pr evs
          refine ⟨?_, ?_⟩
          · rw [ha, matchedOf_incMatched, mismatchedOf_incMatched]
            omega
          · intro l2 hl2
            obtain ⟨hc, hd2⟩ := hb l2 hl2
            rw [hc, hd2, matchedOf_incMatched_ne _ _ _ hl2,
              mismatchedOf_incMatched]
            exact ⟨rfl, rfl⟩
        · have hstep : langStep df page lang p.1 p.2 i (res, pr, evs) =
              (addMismatch ⟨page, p.2.locator, lang, pyStrip p.2.text,
                columnMap lang row, some p.1⟩ (incMismatched lang res),
               ⟨pr.page, pr.elements_checked,
                pr.mismatches ++ [⟨page, p.2.locator, lang, pyStrip p.2.text,
                  columnMap lang row, some p.1⟩]⟩, evs) := by
            simp only [langStep, h1, if_false, Bool.false_eq_true, hf, hrow,
              hm]
          rw [langPhasePairs, hstep, hcount]
          dsimp only
          obtain ⟨ha, hb⟩ := ih (i + 1) _ _ evs
          refine ⟨?_, ?_⟩
          · rw [ha, matchedOf_addMismatch, mismatchedOf_addMismatch,
              matchedOf_incMismatched, mismatchedOf_incMismatched]
            omega
          · intro l2 hl2
            obtain ⟨hc, hd2⟩ := hb l2 hl2
            rw [hc, hd2, matchedOf_addMismatch, mismatchedOf_addMismatch,
              matchedOf_incMismatched,
              mismatchedOf_incMismatched_ne _ _ _ hl2]
            exact ⟨rfl, rfl⟩

/-- Counting invariant of the English phase: `en_matched + en_mismatched`
advances by the number of elements with non-empty stripped text, the
other languages' counters are untouched, and the collected English texts
are the stripped texts of exactly those elements, in order. -/
theorem enPhase_counts (df : List TranslationEntry) (page : String)
    (els : List PageElem) (res : Results) (pr : PageResults) :
    ((enPhase df page els res pr).1.en_matched +
      (enPhase df page els res pr).1.en_mismatched =
      res.en_matched + res.en_mismatched +
        (els.filter fun e => !(pyStrip e.text == "")).length) ∧
    ((enPhase df page els res pr).1.kh_matched = res.kh_matched) ∧
    ((enPhase df page els res pr).1.kh_mismatched = res.kh_mismatched) ∧
    ((enPhase df page els res pr).1.cn_matched = res.cn_matched) ∧
    ((enPhase df page els res pr).1.cn_mismatched = res.cn_mismatched) ∧
    ((enPhase df page els res pr).2.2 =
      (els.filter fun e => !(pyStrip e.text == "")).map
        fun e => pyStrip e.text) := by
  induction els generalizing res pr with
  | nil => simp [enPhase]
  | cons e rest ih =>
    by_cases h1 : (pyStrip e.text == "") = true
    · rw [enPhase, if_pos h1]
      have hfil : ((e :: rest).filter fun e2 => !(pyStrip e2.text == "")) =
          rest.filter fun e2 => !(pyStrip e2.text == "") := by
        simp [List.filter_cons, h1]
      rw [hfil]
      exact ih res pr
    · rw [enPhase, if_neg (by simp [h1])]
      have hfil : ((e :: rest).filter fun e2 => !(pyStrip e2.text == "")) =
          e :: rest.filter fun e2 => !(pyStrip e2.text == "") := by
        simp [List.filter_cons, h1]
      rw [hfil]
      by_cases hm : (checkTranslation df (pyStrip e.text) Lang.en).1 = true
      · rw [if_pos hm]
        dsimp only
        obtain ⟨ha, hb1, hb2, hb3, hb4, hc⟩ := ih (incMatched .en
          { res with total_elements := res.total_elements + 1 })
          ⟨pr.page, pr.elements_checked + 1, pr.mismatches⟩
        refine ⟨?_, ?_, ?_, ?_, ?_, ?_⟩
        · rw [ha]
          simp [incMatched]
          omega
        · rw [hb1]; rfl
        · rw [hb2]; rfl
        · rw [hb3]; rfl
        · rw [hb4]; rfl
        · rw [hc]
          simp
      · rw [if_neg hm]
        dsimp only
        obtain ⟨ha, hb1, hb2, hb3, hb4, hc⟩ := ih
          (addMismatch ⟨page, e.locator, .en, pyStrip e.text,
            pyOr (checkTranslation df (pyStrip e.text) Lang.en).2
              "Not found in translations", none⟩
            (incMismatched .en
              { res with total_elements := res.total_elements + 1 }))
          ⟨pr.page, pr.elements_checked + 1, pr.mismatches ++
            [⟨page, e.locator, .en, pyStrip e.text,
              pyOr (checkTranslation df (pyStrip e.text) Lang.en).2
                "Not found in translations", none⟩]⟩
        refine ⟨?_, ?_, ?_, ?_, ?_, ?_⟩
        · rw [ha]
          simp [incMismatched, addMismatch]
          omega
        · rw [hb1]; rfl
        · rw [hb2]; rfl
        · rw [hb3]; rfl
        · rw [hb4]; rfl
        · rw [hc]
          simp

theorem getPageElements_filter (raw : List PageElem) :
    ((getPageElements raw).filter fun e => !(pyStrip e.text == "")) =
      getPageElements raw := by
  simp [getPageElements, List.filter_filter]



/-- C8: after a page check, for each language the matched counter plus
the mismatched counter equals its previous value plus exactly the number
of comparisons performed for that language — each comparison bumps
exactly one of the two counters and nothing else touches them. -/
theorem c8_aggregation_arithmetic (df : List TranslationEntry)
    (page : String) (rawEn rawKh rawCn : List PageElem) (ks cs : Bool)
    (res : Results) (lang : Lang) :
    matchedOf lang
        (checkPageTranslations df page rawEn rawKh rawCn ks cs res).1 +
      mismatchedOf lang
        (checkPageTranslations df page rawEn rawKh rawCn ks cs res).1 =
      matchedOf lang res + mismatchedOf lang res +
        comparisonsPerformed df rawEn rawKh rawCn lang := by
  rw [checkPageTranslations]
  simp only [langPhase, langPhaseAux_eq_pairs, List.drop_zero]
  have htexts : (enPhase df page (getPageElements rawEn) res
      ⟨page, 0, []⟩).2.2 =
      (getPageElements rawEn).map fun e => pyStrip e.text := by
    rw [(enPhase_counts df page (getPageElements rawEn) res ⟨page, 0, []⟩).2.2.2.2.2,
      getPageElements_filter]
  obtain ⟨hen, hkh1, hkh2, hcn1, hcn2, _⟩ :=
    enPhase_counts df page (getPageElements rawEn) res ⟨page, 0, []⟩
  cases lang with
  | en =>
    rw [((langPhasePairs_counts df page .cn _ 0 _ _ _).2 .en (by decide)).1,
      ((langPhasePairs_counts df page .cn _ 0 _ _ _).2 .en (by decide)).2,
      ((langPhasePairs_counts df page .kh _ 0 _ _ _).2 .en (by decide)).1,
      ((langPhasePairs_counts df page .kh _ 0 _ _ _).2 .en (by decide)).2]
    simp only [matchedOf, mismatchedOf, comparisonsPerformed]
    rw [hen, getPageElements_filter]
  | kh =>
    rw [((langPhasePairs_counts df page .cn _ 0 _ _ _).2 .kh (by decide)).1,
      ((langPhasePairs_counts df page .cn _ 0 _ _ _).2 .kh (by decide)).2,
      (langPhasePairs_counts df page .kh _ 0 _ _ _).1]
    simp only [matchedOf, mismatchedOf, comparisonsPerformed]
    rw [hkh1, hkh2, htexts]
  | cn =>
    rw [(langPhasePairs_counts df page .cn _ 0 _ _ _).1,
      ((langPhasePairs_counts df page .kh _ 0 _ _ _).2 .cn (by decide)).1,
      ((langPhasePairs_counts df page .kh _ 0 _ _ _).2 .cn (by decide)).2]
    simp only [matchedOf, mismatchedOf, comparisonsPerformed]
    rw [hcn1, hcn2, htexts]

/-- C7: with no structural signal (the source's non-English phase never
uses ids or classes), the page check is exactly the positional pairing:
the i-th element of the non-English snapshot is compared with the i-th
English element (the fold of `langStep` over `zip`), and a size-mismatch
warning is emitted for a language precisely when that language's snapshot
has a different number of elements than the English snapshot. -/
theorem c7_positional_fallback (df : List TranslationEntry) (page : String)
    (rawEn rawKh rawCn : List PageElem) (ks cs : Bool) (res : Results) :
    checkPageTranslations df page rawEn rawKh rawCn ks cs res =
      (let elements := getPageElements rawEn
       let ep := enPhase df page elements res ⟨page, 0, []⟩
       let khNew := getPageElements rawKh
       let cnNew := getPageElements rawCn
       let evKh : List LogEvent :=
         if khNew.length = elements.length then []
         else [.sizeMismatch .kh khNew.length elements.length]
       let lp1 := langPhasePairs df page .kh (ep.2.2.zip khNew) 0 ep.1
         ep.2.1 evKh
       let evCn : List LogEvent :=
         if cnNew.length = elements.length then []
         else [.sizeMismatch .cn cnNew.length elements.length]
       langPhasePairs df page .cn (ep.2.2.zip cnNew) 0 lp1.1 lp1.2.1
         (lp1.2.2 ++ evCn)) := by
  rw [checkPageTranslations]
  simp only [langPhase, langPhaseAux_eq_pairs, List.drop_zero]
  by_cases hkh : (getPageElements rawKh).length =
      (getPageElements rawEn).length <;>
    by_cases hcn : (getPageElements rawCn).length =
        (getPageElements rawEn).length <;>
    simp [hkh, hcn]
